import Mathlib

/-!
Verification development for the pdf-latex-converter web service.

The embedding models the request-handling and policy code of the
repository: strings are `List Char`, the Flask request is a record of the
fields the handler reads, the PDF library's page count is the `pageCount`
field (the only datum the code extracts from the bytes), and the remote
AI call's outcome is an `Except` value.  Each definition mirrors one
Python function of `src/app`, keeping its name and branch structure.
-/

/-- Python whitespace as `str.strip()` removes it (the ASCII cases; the
inputs handled here contain no other whitespace). -/
def pyIsSpace (c : Char) : Bool :=
  c = ' ' || c = '\t' || c = '\n' || c = '\r' || c = '\x0b' || c = '\x0c'

/-- Python `s.strip()`: drop leading and trailing whitespace. -/
def pyStrip (s : List Char) : List Char :=
  ((s.dropWhile pyIsSpace).reverse.dropWhile pyIsSpace).reverse

/-- Python `s.lower()` (ASCII case folding, which covers filenames). -/
def pyLower (s : List Char) : List Char := s.map Char.toLower

/-- Python `s.endswith(t)`. -/
def pyEndsWith (s t : List Char) : Bool := t.isSuffixOf s

/-- Contiguous-substring test (Python `t in s`), by recursion on the hay. -/
def containsSub (hay needle : List Char) : Bool :=
  needle.isPrefixOf hay ||
    match hay with
    | [] => false
    | _ :: t => containsSub t needle

/-! ## latex_generator.py: LaTeXGenerator._clean_latex_output -/

/-- Leading fence removal of `_clean_latex_output`:
`if latex_code.startswith('```latex'): latex_code = latex_code[8:]`
`elif latex_code.startswith('```'): latex_code = latex_code[3:]`. -/
def dropLeadingFence (latex_code : List Char) : List Char :=
  if "```latex".data.isPrefixOf latex_code then latex_code.drop 8
  else if "```".data.isPrefixOf latex_code then latex_code.drop 3
  else latex_code

/-- Trailing fence removal:
`if latex_code.endswith('```'): latex_code = latex_code[:-3]`. -/
def dropTrailingFence (latex_code : List Char) : List Char :=
  if "```".data.isSuffixOf latex_code then latex_code.take (latex_code.length - 3)
  else latex_code

/-- Header of the f-string document shell the code wraps bare markup in. -/
def docShellHeader : List Char :=
  "\\documentclass{article}\n\\usepackage[utf8]{inputenc}\n\\usepackage{amsmath}\n\\usepackage{amsfonts}\n\\usepackage{amssymb}\n\\usepackage{graphicx}\n\n\\begin{document}\n\n".data

/-- Footer of the document shell. -/
def docShellFooter : List Char := "\n\n\\end{document}".data

/-- LaTeXGenerator._clean_latex_output: strip markdown fences, strip
whitespace, and wrap in a document shell unless the result already starts
with `\documentclass`. -/
def clean_latex_output (latex_code : List Char) : List Char :=
  let s := pyStrip (dropTrailingFence (dropLeadingFence latex_code))
  if ("\\documentclass".data.isPrefixOf s) = false then
    docShellHeader ++ s ++ docShellFooter
  else s

/-! ## rate_limiter.py: RateLimitConfig and pdf_processor.py validation -/

/-- RateLimitConfig.MAX_PAGES_PER_CONVERSION. -/
def MAX_PAGES_PER_CONVERSION : Nat := 20

/-- Error message of `_validate_page_count` for a document over the page
ceiling (the f-string interpolates the actual and allowed counts). -/
def pageLimitMsg (page_count : Nat) : List Char :=
  "PDF has ".data ++ (Nat.repr page_count).data ++
    " pages, but maximum allowed is ".data ++
    (Nat.repr MAX_PAGES_PER_CONVERSION).data ++
    " pages per conversion. Please split your document into smaller files.".data

/-- PDFProcessor._validate_page_count, as a function of the page count the
PDF library reports for the uploaded bytes.  Returns
`(is_valid, page_count, error_message)` exactly as the Python tuple. -/
def validate_page_count (page_count : Nat) : Bool × Nat × Option (List Char) :=
  if page_count > MAX_PAGES_PER_CONVERSION then
    (false, page_count, some (pageLimitMsg page_count))
  else if page_count = 0 then
    (false, 0, some "PDF appears to be empty or corrupted.".data)
  else
    (true, page_count, none)

/-- LaTeXGenerator.generate_latex: the remote API call's outcome is the
`api_result` argument (the generated markup, or the text of the exception
raised); a success is post-processed by `_clean_latex_output`, a failure
is re-raised wrapped as `LaTeX generation failed: ...`. -/
def generate_latex (api_result : Except (List Char) (List Char)) :
    Except (List Char) (List Char) :=
  match api_result with
  | .ok latex_code => .ok (clean_latex_output latex_code)
  | .error e => .error ("LaTeX generation failed: ".data ++ e)

/-- PDFProcessor.convert_to_latex: validate the page count (raising
`ValueError(error_msg)` when invalid), check the rasterized image list is
non-empty, generate markup; every exception is re-raised wrapped as
`PDF processing failed: ...`. -/
def convert_to_latex (page_count : Nat)
    (api_result : Except (List Char) (List Char)) :
    Except (List Char) (List Char) :=
  match validate_page_count page_count with
  | (false, _, msg) => .error ("PDF processing failed: ".data ++ msg.getD [])
  | (true, _, _) =>
    if page_count = 0 then
      .error "PDF processing failed: No pages found in PDF or failed to process pages".data
    else
      match generate_latex api_result with
      | .ok latex_code => .ok latex_code
      | .error e => .error ("PDF processing failed: ".data ++ e)

/-! ## main.py: the /convert endpoint -/

/-- Python `f'{max_size/1024/1024:.1f}'`.  For any realistic byte count
(below 2^53) the two float divisions by powers of two are exact, so the
format rounds the exact rational `max_size / 2^20` to one decimal place
with ties to even; we compute that rounding on the scaled integer. -/
def fmtOneDecimalMB (max_size : Nat) : List Char :=
  let n := max_size * 10
  let q := n / 1048576
  let r := n % 1048576
  let t :=
    if 2 * r < 1048576 then q
    else if 2 * r > 1048576 then q + 1
    else if q % 2 = 0 then q else q + 1
  (Nat.repr (t / 10)).data ++ ".".data ++ (Nat.repr (t % 10)).data

/-- Error message of the byte-size check in `convert_pdf`. -/
def fileTooLargeMsg (max_size : Nat) : List Char :=
  "File too large. Maximum size is ".data ++ fmtOneDecimalMB max_size ++ "MB".data

/-- Fields of the request that `convert_pdf` reads: the rate-limit
decorator's decision, presence of the `pdf_file` part, its filename and
byte size, the page count the PDF library reports, and the remote
generation outcome when reached. -/
structure ConvertRequest where
  quotaAllowed : Bool
  hasPdfFile : Bool
  filename : List Char
  fileSize : Nat
  pageCount : Nat
  apiResult : Except (List Char) (List Char)

/-- HTTP responses `convert_pdf` can produce: 200 with the markup, 400
with a validation error, 429 from the rate-limit decorator's handler, 500
from the catch-all around the conversion. -/
inductive ConvertResponse where
  | ok (latex_code : List Char)
  | badRequest (error : List Char)
  | tooManyRequests
  | serverError (error : List Char)
deriving DecidableEq

/-- HTTP status code of a response. -/
def statusCode : ConvertResponse → Nat
  | .ok _ => 200
  | .badRequest _ => 400
  | .tooManyRequests => 429
  | .serverError _ => 500

/-- The /convert handler.  The `limiter.limit(RateLimitConfig.CONVERT_LIMITS)`
decorator runs before the view body, so a denied request is answered 429
before any of the body's checks; the body then checks file presence,
filename, extension and byte size in order, and finally calls
`convert_to_latex`, whose exceptions the catch-all turns into a 500. -/
def convert_pdf (max_size : Nat) (r : ConvertRequest) : ConvertResponse :=
  if r.quotaAllowed = false then .tooManyRequests
  else if r.hasPdfFile = false then .badRequest "No file uploaded".data
  else if r.filename = [] then .badRequest "No file selected".data
  else if pyEndsWith (pyLower r.filename) ".pdf".data = false then
    .badRequest "Please upload a PDF file".data
  else if r.fileSize > max_size then .badRequest (fileTooLargeMsg max_size)
  else
    match convert_to_latex r.pageCount r.apiResult with
    | .ok latex_code => .ok latex_code
    | .error e => .serverError ("Conversion failed: ".data ++ e)

/-! ## rate_limiter.py: client identity derivation (get_user_id) -/

/-- Python `a or b` over an optional header value: `None` and the empty
string are falsy, anything else wins. -/
def pyOrElse (v : Option (List Char)) (fallback : List Char) : List Char :=
  match v with
  | some s => if s = [] then fallback else s
  | none => fallback

/-- The `forwarded_ip or real_ip or get_remote_address()` chain of
`get_user_id`: first non-empty of the forwarded-for header, the real-IP
header and the direct connection address. -/
def resolved_ip (forwarded_ip real_ip : Option (List Char))
    (remote_address : List Char) : List Char :=
  pyOrElse forwarded_ip (pyOrElse real_ip remote_address)

/-- The `get_user_id` key function.  `md5hex` abstracts
`hashlib.md5(x.encode()).hexdigest()` (a pure library function, so
`get_user_id` is a deterministic function of its inputs); the code keeps
its first 8 hex characters.  The user-agent header defaults to the empty
string when absent. -/
def get_user_id (md5hex : List Char → List Char)
    (forwarded_ip real_ip : Option (List Char)) (remote_address : List Char)
    (user_agent : Option (List Char)) : List Char :=
  let remote_ip := resolved_ip forwarded_ip real_ip remote_address
  let ua := match user_agent with | some s => s | none => []
  "user:".data ++ remote_ip ++ ":".data ++ (md5hex ua).take 8

/-! ## Quota policy (spec section 4.1) and create_limiter -/

/-- Window durations of a LimitRule. -/
inductive Window where
  | minute
  | hour
  | day
deriving DecidableEq

/-- Seconds in a window. -/
def windowSeconds : Window → Nat
  | .minute => 60
  | .hour => 3600
  | .day => 86400

/-- A rate-limit rule `(maxCount, window)`. -/
structure LimitRule where
  maxCount : Nat
  window : Window
deriving DecidableEq

/-- RateLimitConfig.CONVERT_LIMITS = ["2 per minute", "5 per day"]. -/
def CONVERT_LIMITS : List LimitRule := [⟨2, .minute⟩, ⟨5, .day⟩]

/-- RateLimitConfig.HEALTH_LIMITS = ["60 per minute", "1000 per day"]. -/
def HEALTH_LIMITS : List LimitRule := [⟨60, .minute⟩, ⟨1000, .day⟩]

/-- RateLimitConfig.GENERAL_LIMITS = ["30 per minute", "500 per day"]. -/
def GENERAL_LIMITS : List LimitRule := [⟨30, .minute⟩, ⟨500, .day⟩]

/-- RateLimitConfig.UPLOAD_VALIDATION_LIMITS = ["10 per minute", "50 per day"]. -/
def UPLOAD_VALIDATION_LIMITS : List LimitRule := [⟨10, .minute⟩, ⟨50, .day⟩]

/-- A named limit tier: an ordered list of rules, all enforced (AND). -/
structure Tier where
  name : List Char
  rules : List LimitRule

/-- Tier of the conversion endpoint. -/
def convertTier : Tier := ⟨"convert".data, CONVERT_LIMITS⟩

/-- Counter key: client identity, tier name, and the rule's window with
its calendar-aligned start (one counter per rule of the tier). -/
structure CounterKey where
  identity : List Char
  tierName : List Char
  window : Window
  windowStart : Nat
deriving DecidableEq

/-- Counter store state: counts per key (expiry is modelled by the
window start inside the key; keys of past windows are never consulted). -/
def Store : Type := CounterKey → Nat

/-- Start of the calendar-aligned fixed window containing `now`. -/
def windowStartAt (now : Nat) (w : Window) : Nat :=
  now - now % windowSeconds w

/-- Seconds remaining until the window boundary. -/
def retryAfter (now : Nat) (w : Window) : Nat :=
  windowSeconds w - now % windowSeconds w

/-- Counter key of one rule for an identity at time `now`. -/
def keyFor (identity tierName : List Char) (now : Nat) (r : LimitRule) : CounterKey :=
  ⟨identity, tierName, r.window, windowStartAt now r.window⟩

/-- Outcome of a quota check. -/
inductive Decision where
  | allowed
  | denied (retryAfterSeconds : Nat) (violated : LimitRule)
deriving DecidableEq

/-- First rule of the list (in listed order) whose current counter has
reached its bound. -/
def firstViolated (st : Store) (identity tierName : List Char) (now : Nat) :
    List LimitRule → Option LimitRule
  | [] => none
  | r :: rs =>
    if st (keyFor identity tierName now r) ≥ r.maxCount then some r
    else firstViolated st identity tierName now rs

/-- Increment the counter of every rule in the list. -/
def bumpAll (st : Store) (identity tierName : List Char) (now : Nat) :
    List LimitRule → Store
  | [] => st
  | r :: rs =>
    bumpAll (fun k => if k = keyFor identity tierName now r then st k + 1 else st k)
      identity tierName now rs

/-- Modelled from the spec: `checkAndConsume(identity, tierName)` of
QuotaPolicy (spec section 4.1).  The check-and-consume loop itself lives
in the third-party rate-limit library the source delegates to, not in the
repository's files; per the spec, every rule of the tier is checked in
listed order, a violation denies immediately with the first violated rule
and its retry-after, and only when no rule is violated is every rule's
counter incremented. -/
def checkAndConsume (st : Store) (identity : List Char) (tier : Tier)
    (now : Nat) : Decision × Store :=
  match firstViolated st identity tier.name now tier.rules with
  | some r => (.denied (retryAfter now r.window) r, st)
  | none => (.allowed, bumpAll st identity tier.name now tier.rules)

/-- Configuration `create_limiter` builds: the storage URI chosen, the
warnings logged while building it, and the `swallow_errors` flag. -/
structure LimiterConfig where
  storage_uri : List Char
  warnings : List (List Char)
  swallow_errors : Bool

/-- The create_limiter function: try to connect and ping Redis (outcome
`ping`; an error carries the exception text); on failure fall back to
`memory://` storage and log two warnings; either way construct the
limiter with `swallow_errors=True`. -/
def create_limiter (redis_url : List Char) (ping : Except (List Char) Unit) :
    LimiterConfig :=
  match ping with
  | .ok _ =>
    { storage_uri := redis_url, warnings := [], swallow_errors := true }
  | .error e =>
    { storage_uri := "memory://".data
      warnings :=
        ["⚠️  Redis connection failed (".data ++ e ++ "), using in-memory rate limiting".data,
         "💡 For production, please configure Redis properly".data]
      swallow_errors := true }

/-- Modelled from the spec: the rate-limit library's request-time handling
of a store error under the `swallow_errors` flag `create_limiter` sets
(the library's code is not among the repository's files).  Per the spec,
store errors during a request are swallowed and the request is treated as
`Allowed` (fail-open). -/
def limiterDecide (cfg : LimiterConfig)
    (storeResult : Except (List Char) Decision) : Except (List Char) Decision :=
  match storeResult with
  | .ok d => .ok d
  | .error e => if cfg.swallow_errors then .ok .allowed else .error e

/-! ## Helper lemmas -/

theorem isPrefixOf_append_of (p x y : List Char) (h : p.isPrefixOf x = true) :
    p.isPrefixOf (x ++ y) = true := by
  induction p generalizing x with
  | nil => simp [List.isPrefixOf]
  | cons a as ih =>
    cases x with
    | nil => simp [List.isPrefixOf] at h
    | cons b bs =>
      simp only [List.cons_append, List.isPrefixOf, Bool.and_eq_true, beq_iff_eq] at h ⊢
      exact ⟨h.1, ih bs h.2⟩

theorem isPrefixOf_of_isPrefixOf_of_le (p q s : List Char) (hp : p.isPrefixOf s = true)
    (hq : q.isPrefixOf s = true) (hl : p.length ≤ q.length) : p.isPrefixOf q = true := by
  induction p generalizing q s with
  | nil => simp [List.isPrefixOf]
  | cons a as ih =>
    cases s with
    | nil => simp [List.isPrefixOf] at hp
    | cons c cs =>
      cases q with
      | nil => simp at hl
      | cons b bs =>
        simp only [List.isPrefixOf, Bool.and_eq_true, beq_iff_eq] at hp hq ⊢
        obtain ⟨rfl, hp2⟩ := hp
        obtain ⟨rfl, hq2⟩ := hq
        exact ⟨rfl, ih bs cs hp2 hq2 (by simpa using hl)⟩

/-! ## C10 -/

/-- C10: for every input string, the markup clean-up function returns a
string that starts with `\documentclass`: inputs whose cleaned form does
not already begin with it are wrapped in the fixed article-class shell,
so the final output begins with `\documentclass` in all cases. -/
theorem clean_latex_output_begins_documentclass (s : List Char) :
    "\\documentclass".data.isPrefixOf (clean_latex_output s) = true := by
  unfold clean_latex_output
  cases hc : "\\documentclass".data.isPrefixOf (pyStrip (dropTrailingFence (dropLeadingFence s))) with
  | false =>
    simp only [hc, if_pos]
    rw [List.append_assoc]
    exact isPrefixOf_append_of _ _ _ (by decide)
  | true => simp [hc]

/-! ## C4 -/

/-- C4 counterexample: markup that already contains a document preamble
but carries a trailing newline is not returned character for character —
the clean-up strips the surrounding whitespace. -/
theorem clean_not_identity_on_preamble_input :
    containsSub "\\documentclass{article}\n".data "\\documentclass".data = true ∧
    clean_latex_output "\\documentclass{article}\n".data ≠
      "\\documentclass{article}\n".data := by
  decide

/-- C4 (amended): markup whose cleaned form (after removing code-fence
markers and stripping surrounding whitespace) begins with `\documentclass`
is returned as that cleaned form — in particular, markup that already
begins with `\documentclass` and carries no fence markers and no
surrounding whitespace passes through character for character — and
markup whose cleaned form does not begin with `\documentclass` is wrapped
into the complete standalone document shell. -/
theorem clean_latex_output_cases (s : List Char) :
    ("\\documentclass".data.isPrefixOf (pyStrip (dropTrailingFence (dropLeadingFence s))) = true →
      clean_latex_output s = pyStrip (dropTrailingFence (dropLeadingFence s))) ∧
    ("\\documentclass".data.isPrefixOf (pyStrip (dropTrailingFence (dropLeadingFence s))) = false →
      clean_latex_output s =
        docShellHeader ++ pyStrip (dropTrailingFence (dropLeadingFence s)) ++ docShellFooter) ∧
    ("\\documentclass".data.isPrefixOf s = true → "```".data.isSuffixOf s = false →
      pyStrip s = s → clean_latex_output s = s) := by
  refine ⟨fun h => by simp [clean_latex_output, h],
          fun h => by simp [clean_latex_output, h], ?_⟩
  intro hp hsuf hstrip
  have hl8 : "```latex".data.isPrefixOf s = false := by
    cases hcase : "```latex".data.isPrefixOf s with
    | false => rfl
    | true =>
      have := isPrefixOf_of_isPrefixOf_of_le _ _ s hcase hp (by decide)
      exact absurd this (by decide)
  have hl3 : "```".data.isPrefixOf s = false := by
    cases hcase : "```".data.isPrefixOf s with
    | false => rfl
    | true =>
      have := isPrefixOf_of_isPrefixOf_of_le _ _ s hcase hp (by decide)
      exact absurd this (by decide)
  have hlead : dropLeadingFence s = s := by simp [dropLeadingFence, hl8, hl3]
  have htrail : dropTrailingFence s = s := by simp [dropTrailingFence, hsuf]
  simp [clean_latex_output, hlead, htrail, hstrip, hp]

/-- C4 witness: a complete preamble-bearing document with no fences and
no surrounding whitespace passes through unchanged. -/
theorem clean_latex_output_cases_witness :
    clean_latex_output "\\documentclass{article}".data = "\\documentclass{article}".data :=
  (clean_latex_output_cases "\\documentclass{article}".data).2.2
    (by decide) (by decide) (by decide)

/-! ## C1 -/

/-- C1 counterexample: a request that fails both the quota check and the
no-file check is answered with the quota 429, not the no-file 400 — the
quota check runs before the no-file check, not fourth. -/
theorem quota_denied_no_file_is_429 :
    convert_pdf 10485760
      { quotaAllowed := false, hasPdfFile := false, filename := [],
        fileSize := 0, pageCount := 1, apiResult := .ok [] } = .tooManyRequests ∧
    convert_pdf 10485760
      { quotaAllowed := false, hasPdfFile := false, filename := [],
        fileSize := 0, pageCount := 1, apiResult := .ok [] } ≠
      .badRequest "No file uploaded".data := by
  decide

/-- C1 (amended): the conversion endpoint's checks run in strict order
with the quota check FIRST (it is applied by the rate-limit decorator
before the view body), then the no-file check, the empty-filename check,
the extension check, the byte-size check, and finally the page-count
check; a request failing an earlier check is rejected with that check's
error and never reaches a later check. -/
theorem convert_pdf_check_order (ms : Nat) (r : ConvertRequest) :
    (r.quotaAllowed = false → convert_pdf ms r = .tooManyRequests) ∧
    (r.quotaAllowed = true → r.hasPdfFile = false →
      convert_pdf ms r = .badRequest "No file uploaded".data) ∧
    (r.quotaAllowed = true → r.hasPdfFile = true → r.filename = [] →
      convert_pdf ms r = .badRequest "No file selected".data) ∧
    (r.quotaAllowed = true → r.hasPdfFile = true → r.filename ≠ [] →
      pyEndsWith (pyLower r.filename) ".pdf".data = false →
      convert_pdf ms r = .badRequest "Please upload a PDF file".data) ∧
    (r.quotaAllowed = true → r.hasPdfFile = true → r.filename ≠ [] →
      pyEndsWith (pyLower r.filename) ".pdf".data = true → ms < r.fileSize →
      convert_pdf ms r = .badRequest (fileTooLargeMsg ms)) ∧
    (r.quotaAllowed = true → r.hasPdfFile = true → r.filename ≠ [] →
      pyEndsWith (pyLower r.filename) ".pdf".data = true → r.fileSize ≤ ms →
      MAX_PAGES_PER_CONVERSION < r.pageCount →
      convert_pdf ms r =
        .serverError ("Conversion failed: ".data ++
          ("PDF processing failed: ".data ++ pageLimitMsg r.pageCount))) := by
  refine ⟨?_, ?_, ?_, ?_, ?_, ?_⟩
  · intro hq
    simp [convert_pdf, hq]
  · intro hq hf
    simp [convert_pdf, hq, hf]
  · intro hq hf hn
    simp [convert_pdf, hq, hf, hn]
  · intro hq hf hn hext
    simp [convert_pdf, hq, hf, hn, hext]
  · intro hq hf hn hext hsize
    simp [convert_pdf, hq, hf, hn, hext, hsize]
  · intro hq hf hn hext hsize hpages
    have h1 : ¬ (ms < r.fileSize) := by omega
    simp [convert_pdf, convert_to_latex, validate_page_count, hq, hf, hn, hext,
      h1, hpages]

/-! ## C2 -/

/-- Request with a valid filename and admissible size whose PDF reports
0 pages. -/
def reqEmptyPdf : ConvertRequest :=
  { quotaAllowed := true, hasPdfFile := true, filename := "paper.pdf".data,
    fileSize := 1000, pageCount := 0, apiResult := .ok "x".data }

/-- C2 counterexample: the empty-document validation failure is answered
with HTTP status 500 (the validation error is raised inside the
conversion and caught by the catch-all), not 400 as the claim states. -/
theorem empty_document_gets_500 :
    statusCode (convert_pdf 10485760 reqEmptyPdf) = 500 ∧
    convert_pdf 10485760 reqEmptyPdf =
      .serverError "Conversion failed: PDF processing failed: PDF appears to be empty or corrupted.".data := by
  decide

/-- C2 (amended): for a quota-allowed request, the wrong-file-type and
oversized-file failures are answered 400 with their specific messages;
the empty-document and too-many-pages validation failures propagate as
exceptions out of the conversion and are answered 500 with the wrapped
validation message; 500 likewise reports downstream generation
failures. -/
theorem validation_status_codes (ms : Nat) (r : ConvertRequest)
    (hq : r.quotaAllowed = true) (hf : r.hasPdfFile = true) (hn : r.filename ≠ []) :
    (pyEndsWith (pyLower r.filename) ".pdf".data = false →
      convert_pdf ms r = .badRequest "Please upload a PDF file".data) ∧
    (pyEndsWith (pyLower r.filename) ".pdf".data = true → ms < r.fileSize →
      convert_pdf ms r = .badRequest (fileTooLargeMsg ms)) ∧
    (pyEndsWith (pyLower r.filename) ".pdf".data = true → r.fileSize ≤ ms →
      r.pageCount = 0 →
      convert_pdf ms r =
        .serverError ("Conversion failed: ".data ++
          ("PDF processing failed: ".data ++ "PDF appears to be empty or corrupted.".data))) ∧
    (pyEndsWith (pyLower r.filename) ".pdf".data = true → r.fileSize ≤ ms →
      MAX_PAGES_PER_CONVERSION < r.pageCount →
      convert_pdf ms r =
        .serverError ("Conversion failed: ".data ++
          ("PDF processing failed: ".data ++ pageLimitMsg r.pageCount))) ∧
    (pyEndsWith (pyLower r.filename) ".pdf".data = true → r.fileSize ≤ ms →
      0 < r.pageCount → r.pageCount ≤ MAX_PAGES_PER_CONVERSION →
      ∀ e : List Char, r.apiResult = .error e →
      convert_pdf ms r =
        .serverError ("Conversion failed: ".data ++
          ("PDF processing failed: ".data ++ ("LaTeX generation failed: ".data ++ e)))) := by
  refine ⟨?_, ?_, ?_, ?_, ?_⟩
  · intro hext
    simp [convert_pdf, hq, hf, hn, hext]
  · intro hext hsize
    simp [convert_pdf, hq, hf, hn, hext, hsize]
  · intro hext hsize hzero
    have h1 : ¬ (ms < r.fileSize) := by omega
    simp [convert_pdf, convert_to_latex, validate_page_count, hq, hf, hn, hext,
      h1, hzero]
  · intro hext hsize hpages
    have h1 : ¬ (ms < r.fileSize) := by omega
    simp [convert_pdf, convert_to_latex, validate_page_count, hq, hf, hn, hext,
      h1, hpages]
  · intro hext hsize hpos hle e he
    have h1 : ¬ (ms < r.fileSize) := by omega
    have h2 : ¬ (MAX_PAGES_PER_CONVERSION < r.pageCount) := by omega
    have h3 : ¬ (r.pageCount = 0) := by omega
    simp [convert_pdf, convert_to_latex, validate_page_count, generate_latex,
      hq, hf, hn, hext, h1, h2, h3, he]

/-- Request with a valid filename and admissible size whose PDF reports
21 pages. -/
def reqTooManyPages : ConvertRequest :=
  { quotaAllowed := true, hasPdfFile := true, filename := "big.pdf".data,
    fileSize := 1000, pageCount := 21, apiResult := .ok "x".data }

/-- C2 witness: the 21-page document is answered 500 with the wrapped
page-limit message. -/
theorem validation_status_codes_witness :
    convert_pdf 10485760 reqTooManyPages =
      .serverError ("Conversion failed: ".data ++
        ("PDF processing failed: ".data ++ pageLimitMsg 21)) :=
  (validation_status_codes 10485760 reqTooManyPages rfl rfl (by decide)).2.2.2.1
    (by decide) (by decide) (by decide)

/-! ## C5 -/

/-- C5: page-count validation rejects a 0-page document (and the endpoint
rejects it regardless of the quota decision), admits a document of
exactly 20 pages, and rejects a 21-page document with a message naming
both the actual count 21 and the ceiling 20. -/
theorem page_count_validation_bounds :
    validate_page_count 0 = (false, 0, some "PDF appears to be empty or corrupted.".data) ∧
    validate_page_count 20 = (true, 20, none) ∧
    validate_page_count 21 = (false, 21, some (pageLimitMsg 21)) ∧
    containsSub (pageLimitMsg 21) "21".data = true ∧
    containsSub (pageLimitMsg 21) "20".data = true ∧
    (∀ q : Bool, statusCode (convert_pdf 10485760 { reqEmptyPdf with quotaAllowed := q }) ≠ 200) := by
  refine ⟨by decide, by decide, by decide, by decide, by decide, ?_⟩
  intro q
  cases q <;> decide

/-! ## C6 -/

/-- C6: the byte-size check admits a file whose size equals the
configured maximum exactly (the request proceeds past all 400-producing
checks), rejects a file of size limit+1 with the file-too-large message,
and that message reports the default limit 10485760 as 10.0MB (MiB to
one decimal place). -/
theorem size_check_boundary (ms : Nat) (r : ConvertRequest)
    (hq : r.quotaAllowed = true) (hf : r.hasPdfFile = true) (hn : r.filename ≠ [])
    (he : pyEndsWith (pyLower r.filename) ".pdf".data = true) :
    (r.fileSize ≤ ms → statusCode (convert_pdf ms r) ≠ 400) ∧
    (r.fileSize = ms + 1 → convert_pdf ms r = .badRequest (fileTooLargeMsg ms)) ∧
    fileTooLargeMsg 10485760 = "File too large. Maximum size is 10.0MB".data := by
  refine ⟨?_, ?_, by decide⟩
  · intro hsize
    have h1 : ¬ (ms < r.fileSize) := by omega
    simp only [convert_pdf, hq, hf, he, h1]
    simp [hn]
    cases hcv : convert_to_latex r.pageCount r.apiResult <;> simp [hcv, statusCode]
  · intro hsize
    have h1 : ms < r.fileSize := by omega
    simp [convert_pdf, hq, hf, hn, he, h1]

/-- Request whose file size is exactly the default limit. -/
def reqAtLimit : ConvertRequest :=
  { quotaAllowed := true, hasPdfFile := true, filename := "doc.pdf".data,
    fileSize := 10485760, pageCount := 3, apiResult := .ok "hello".data }

/-- C6 witness: a file of exactly the default limit is not rejected with
a 400. -/
theorem size_check_boundary_witness :
    statusCode (convert_pdf 10485760 reqAtLimit) ≠ 400 :=
  (size_check_boundary 10485760 reqAtLimit rfl rfl (by decide) (by decide)).1
    (by decide)

/-! ## C7 -/

/-- C7: the derived client identity is a deterministic function of the
forwarded-for header, the real-IP header, the direct connection address
and the user-agent header (`get_user_id` is a pure function of these
inputs and the hash function): it has the exact shape
`user:<address>:<hash-prefix>`, where the address is the first non-empty
of forwarded-for, real-IP and direct address in that priority order, and
the hash prefix is the first 8 hex characters of the hash of the
user-agent (empty string when the header is absent). -/
theorem get_user_id_shape (md5hex : List Char → List Char)
    (fwd rip : Option (List Char)) (remote : List Char) (ua : Option (List Char)) :
    get_user_id md5hex fwd rip remote ua =
      "user:".data ++ resolved_ip fwd rip remote ++ ":".data ++ (md5hex (ua.getD [])).take 8 ∧
    ((md5hex (ua.getD [])).take 8).length ≤ 8 ∧
    (∀ a, fwd = some a → a ≠ [] → resolved_ip fwd rip remote = a) ∧
    ((fwd = none ∨ fwd = some []) → ∀ b, rip = some b → b ≠ [] →
      resolved_ip fwd rip remote = b) ∧
    ((fwd = none ∨ fwd = some []) → (rip = none ∨ rip = some []) →
      resolved_ip fwd rip remote = remote) := by
  refine ⟨?_, ?_, ?_, ?_, ?_⟩
  · cases ua <;> rfl
  · rw [List.length_take]
    exact Nat.min_le_left _ _
  · intro a ha hne
    subst ha
    simp [resolved_ip, pyOrElse, hne]
  · rintro (rfl | rfl) b hb hne <;> subst hb <;> simp [resolved_ip, pyOrElse, hne]
  · rintro (rfl | rfl) (rfl | rfl) <;> simp [resolved_ip, pyOrElse]

/-! ## C8 -/

/-- C8: two requests whose resolved addresses differ derive different
client identities even when their truncated user-agent hash prefixes are
equal. -/
theorem distinct_addresses_distinct_identities (md5hex : List Char → List Char)
    (fwd1 rip1 : Option (List Char)) (rem1 : List Char) (ua1 : Option (List Char))
    (fwd2 rip2 : Option (List Char)) (rem2 : List Char) (ua2 : Option (List Char))
    (haddr : resolved_ip fwd1 rip1 rem1 ≠ resolved_ip fwd2 rip2 rem2)
    (hhash : (md5hex (ua1.getD [])).take 8 = (md5hex (ua2.getD [])).take 8) :
    get_user_id md5hex fwd1 rip1 rem1 ua1 ≠ get_user_id md5hex fwd2 rip2 rem2 ua2 := by
  intro h
  apply haddr
  have e1 : get_user_id md5hex fwd1 rip1 rem1 ua1 =
      "user:".data ++ resolved_ip fwd1 rip1 rem1 ++ ":".data ++ (md5hex (ua1.getD [])).take 8 := by
    cases ua1 <;> rfl
  have e2 : get_user_id md5hex fwd2 rip2 rem2 ua2 =
      "user:".data ++ resolved_ip fwd2 rip2 rem2 ++ ":".data ++ (md5hex (ua2.getD [])).take 8 := by
    cases ua2 <;> rfl
  rw [e1, e2, hhash] at h
  have h2 := List.append_cancel_right h
  have h3 := List.append_cancel_right h2
  exact List.append_cancel_left h3

/-- Fixed stand-in for the hexadecimal hash (the value md5 gives the
empty user-agent string). -/
def md5hexStub : List Char → List Char :=
  fun _ => "d41d8cd98f00b204e9800998ecf8427e".data

/-- C8 witness: two requests from different direct addresses with the
same (hence same-hashed) absent user-agent get different identities. -/
theorem distinct_addresses_distinct_identities_witness :
    get_user_id md5hexStub none none "10.0.0.1".data none ≠
      get_user_id md5hexStub none none "10.0.0.2".data none :=
  distinct_addresses_distinct_identities md5hexStub none none "10.0.0.1".data none
    none none "10.0.0.2".data none (by decide) rfl

/-! ## C3 -/

/-- C3: for every store state, identity, tier and time, a checkAndConsume
call that returns Denied leaves every counter in the store unchanged —
rule counters are incremented together only on the Allowed path, never
partially on a denied check. -/
theorem denied_consumes_nothing (st : Store) (ident : List Char) (tier : Tier)
    (now ra : Nat) (rule : LimitRule)
    (h : (checkAndConsume st ident tier now).1 = Decision.denied ra rule) :
    ∀ k, (checkAndConsume st ident tier now).2 k = st k := by
  intro k
  unfold checkAndConsume at h ⊢
  cases hf : firstViolated st ident tier.name now tier.rules with
  | some r => rfl
  | none =>
    rw [hf] at h
    simp at h

/-- Key of the convert tier's per-minute rule for the witness identity at
time 0. -/
def witnessKey : CounterKey :=
  ⟨"user:1.2.3.4:d41d8cd9".data, "convert".data, Window.minute, 0⟩

/-- Store whose counters all read 2, the convert tier's per-minute bound. -/
def storeAtBound : Store := fun _ => 2

/-- C3 witness: a denied convert-tier check leaves the witness counter
unchanged. -/
theorem denied_consumes_nothing_witness :
    (checkAndConsume storeAtBound "user:1.2.3.4:d41d8cd9".data convertTier 0).2 witnessKey =
      storeAtBound witnessKey :=
  denied_consumes_nothing storeAtBound "user:1.2.3.4:d41d8cd9".data convertTier 0
    60 ⟨2, Window.minute⟩ (by decide) witnessKey

/-! ## C9 -/

/-- C9: when the Redis ping fails at startup, limiter construction still
yields a configuration (it does not fail): the storage falls back to the
local in-process store, a degraded-mode warning is logged, the limiter is
built with swallow-errors on, and a store error arising during a request
is swallowed and treated as Allowed (fail-open); with a successful ping
the networked store is kept. -/
theorem store_failure_fail_open (url e se : List Char) :
    (create_limiter url (Except.error e)).storage_uri = "memory://".data ∧
    (create_limiter url (Except.error e)).warnings ≠ [] ∧
    "⚠️  Redis connection failed".data.isPrefixOf
      ((create_limiter url (Except.error e)).warnings.headD []) = true ∧
    (create_limiter url (Except.error e)).swallow_errors = true ∧
    limiterDecide (create_limiter url (Except.error e)) (Except.error se) =
      Except.ok Decision.allowed ∧
    (create_limiter url (Except.ok ())).storage_uri = url := by
  refine ⟨rfl, by simp [create_limiter], ?_, rfl, rfl, rfl⟩
  exact isPrefixOf_append_of _ _ _ (isPrefixOf_append_of _ _ _ (by decide))
